import Mathlib

/-!
Verification of the USCIS Torch API client
(`src/uscis_streamlit_minimal/services/uscis_client.py`).

The client is shallowly embedded: the HTTP layer is abstracted as an
`HttpOutcome` (either a response — status code, raw text, and the result of
decoding the text as JSON — or a transport exception), timestamps are integer
seconds, and the stateful client object is explicit state passing over
`ClientState`.  Every definition below is translated from the Python source;
the instrumentation counter `authCalls` records how many times
`authenticate` runs.
-/

namespace Uscis

/-- JSON values, the shape of decoded response bodies (`response.json()`).
Numbers are modelled as integers (the fields the client reads are integral). -/
inductive Json where
  | null : Json
  | bool (b : Bool) : Json
  | num (n : Int) : Json
  | str (s : String) : Json
  | arr (elems : List Json) : Json
  | obj (fields : List (String × Json)) : Json

/-- `d.get(k)` on a decoded JSON object: the value under key `k`, or `none`
when the key is absent (or the value is not an object). -/
def Json.get? : Json → String → Option Json
  | .obj fields, k => fields.lookup k
  | _, _ => none

/-- `d.get(k, default)` where the expected value is a string: returns the
string stored under `k`, else the default. -/
def Json.getStrD (j : Json) (k d : String) : String :=
  match j.get? k with
  | some (.str s) => s
  | _ => d

/-- `d.get(k)` where the expected value is a string: `some` of the string
stored under `k`, else `none` (matching Python's `None` default). -/
def Json.getStr? (j : Json) (k : String) : Option String :=
  match j.get? k with
  | some (.str s) => some s
  | _ => none

/-- `TokenInfo` dataclass: OAuth 2.0 access token information.
`issued_at` is an integer timestamp (seconds). -/
structure TokenInfo where
  access_token : String
  token_type : String
  expires_in : Int
  issued_at : Int
  api_products : List String
deriving Repr, DecidableEq

/-- `TokenInfo.expires_at`: `issued_at + timedelta(seconds=expires_in)`. -/
def TokenInfo.expires_at (t : TokenInfo) : Int :=
  t.issued_at + t.expires_in

/-- `TokenInfo.is_expired` at time `now`:
`datetime.now() >= (self.expires_at - timedelta(seconds=60))`. -/
def TokenInfo.is_expired (t : TokenInfo) (now : Int) : Bool :=
  decide (t.expires_at - 60 ≤ now)

/-- `CaseStatus` dataclass: parsed Case Status API response. -/
structure CaseStatus where
  receipt_number : String
  form_type : String
  submitted_date : Option String
  modified_date : Option String
  status_text_en : String
  status_desc_en : String
  status_text_es : Option String
  status_desc_es : Option String
  history : Option Json
  raw_response : Json

/-- `FOIARequest` dataclass: parsed FOIA API response. -/
structure FOIARequest where
  request_number : Option String
  status : Option String
  created_date : Option String
  raw_response : Json

/-- `USCISApiError`: message, optional machine code, optional HTTP status,
optional trace id.  `str(e)` of the exception is its `message`. -/
structure USCISApiError where
  message : String
  code : Option String
  status : Option Int
  trace_id : Option String
deriving Repr, DecidableEq

/-- `USCISEnvironment` enum. -/
inductive USCISEnvironment where
  | SANDBOX : USCISEnvironment
  | PRODUCTION : USCISEnvironment
deriving Repr, DecidableEq

/-- `USCISEnvironment.value`. -/
def USCISEnvironment.value : USCISEnvironment → String
  | .SANDBOX => "sandbox"
  | .PRODUCTION => "production"

/-- An HTTP response as the client observes it: numeric status code, raw body
text, and the outcome of `response.json()` on that text (`Except.error` holds
the decode exception's text when the body is not valid JSON). -/
structure HttpResponse where
  statusCode : Int
  text : String
  json : Except String Json

/-- Outcome of issuing one HTTP request: either a response was obtained, or a
`requests.RequestException` (DNS / connect / timeout) with message `msg`. -/
inductive HttpOutcome where
  | success (resp : HttpResponse) : HttpOutcome
  | transportError (msg : String) : HttpOutcome

/-- The mutable state of a `USCISApiClient`: the cached token, the session's
`Authorization` header, the environment chosen at construction, and an
instrumentation counter of `authenticate()` invocations. -/
structure ClientState where
  token_info : Option TokenInfo
  authHeader : Option String
  environment : USCISEnvironment
  authCalls : Nat

/-- `USCISApiClient.is_authenticated`:
`self.token_info is not None and not self.token_info.is_expired`. -/
def is_authenticated (tok : Option TokenInfo) (now : Int) : Bool :=
  match tok with
  | none => false
  | some t => !(t.is_expired now)

/-- Exceptions `authenticate` can raise: a `USCISApiError` (the typed client
error), or an unhandled Python exception (`KeyError` from `data["access_token"]`,
`ValueError`/`TypeError` from `int(...)`) carrying its message. -/
inductive AuthExn where
  | apiError (e : USCISApiError) : AuthExn
  | otherError (msg : String) : AuthExn

/-- Decimal digit test. -/
def isDigitChar (c : Char) : Bool :=
  decide ('0' ≤ c) && decide (c ≤ '9')

/-- Value of a digit string (most significant first). -/
def digitsToNat (cs : List Char) : Nat :=
  cs.foldl (fun n c => n * 10 + (c.toNat - '0'.toNat)) 0

/-- Python `int(s)` on a string: surrounding whitespace is stripped, an
optional sign precedes a non-empty run of decimal digits; anything else
raises `ValueError`. -/
def parsePyInt (s : String) : Option Int :=
  let cs := ((s.data.dropWhile fun c => c = ' ').reverse.dropWhile fun c => c = ' ').reverse
  match cs with
  | [] => none
  | c :: rest =>
    if c = '-' then
      if !rest.isEmpty && rest.all isDigitChar then some (-(digitsToNat rest : Int)) else none
    else if c = '+' then
      if !rest.isEmpty && rest.all isDigitChar then some (digitsToNat rest : Int) else none
    else
      if (c :: rest).all isDigitChar then some (digitsToNat (c :: rest) : Int) else none

/-- Python `int(v)` on a JSON value: integers pass through, booleans coerce,
numeric strings are parsed, anything else raises (`ValueError`/`TypeError`). -/
def pyInt : Json → Except String Int
  | .num n => .ok n
  | .bool b => .ok (if b then 1 else 0)
  | .str s =>
    match parsePyInt s with
    | some n => .ok n
    | none => .error ("invalid literal for int() with base 10: " ++ s)
  | .null => .error "int() argument cannot be None"
  | _ => .error "int() argument must be a string or a number"

/-- `int(data.get("expires_in", 1799))`: default 1799 when the key is absent;
a present value goes through `int(...)`, which can raise. -/
def expires_in_value (data : Json) : Except String Int :=
  match data.get? "expires_in" with
  | none => .ok 1799
  | some v => pyInt v

/-- `api_products = data.get("api_product_list_json", [])`, wrapped in a
one-element list when it arrives as a single string. -/
def parse_api_products : Option Json → List String
  | some (.str s) => [s]
  | some (.arr l) => l.filterMap fun j => match j with | .str s => some s | _ => none
  | _ => []

/-- `error_data = response.json() if response.text else {}` on the non-200
branch of `authenticate`: an empty body yields `{}`; a non-empty body is
decoded, and a decode failure propagates (it is a `requests.RequestException`
subclass, caught by the outer handler). -/
def auth_error_data (resp : HttpResponse) : Except String Json :=
  if resp.text = "" then .ok (.obj []) else resp.json

/-- The outcome of `USCISApiClient.authenticate()` as a function of the OAuth
endpoint's `HttpOutcome`, before any client-state update: the new `TokenInfo`
on success, the raised exception otherwise.  Mirrors the source: non-200
responses raise a `USCISApiError` with the status and the server `error` field
(default "AUTH_ERROR"); any `requests.RequestException` (transport failure or
JSON decode failure) is wrapped as a status-less `USCISApiError`; a missing
`access_token` or a non-convertible `expires_in` raises an untyped exception. -/
def authenticate_result (now : Int) (out : HttpOutcome) : Except AuthExn TokenInfo :=
  match out with
  | .transportError m =>
    .error (.apiError ⟨"Network error during authentication: " ++ m, none, none, none⟩)
  | .success resp =>
    if resp.statusCode ≠ 200 then
      match auth_error_data resp with
      | .error m =>
        .error (.apiError ⟨"Network error during authentication: " ++ m, none, none, none⟩)
      | .ok error_data =>
        .error (.apiError ⟨"Authentication failed: " ++ toString resp.statusCode,
          some (error_data.getStrD "error" "AUTH_ERROR"), some resp.statusCode, none⟩)
    else
      match resp.json with
      | .error m =>
        .error (.apiError ⟨"Network error during authentication: " ++ m, none, none, none⟩)
      | .ok data =>
        let api_products := parse_api_products (data.get? "api_product_list_json")
        match data.get? "access_token" with
        | none => .error (.otherError "KeyError: access_token")
        | some (.str tok) =>
          match expires_in_value data with
          | .error m => .error (.otherError m)
          | .ok ei =>
            .ok ⟨tok, data.getStrD "token_type" "Bearer", ei, now, api_products⟩
        | some _ => .error (.otherError "TypeError: access_token is not a string")

/-- `USCISApiClient.authenticate()`: runs `authenticate_result` and, only on
success, replaces the cached token and the session's bearer header.  Every
call increments the `authCalls` instrumentation counter. -/
def authenticate (st : ClientState) (now : Int) (out : HttpOutcome) :
    Except AuthExn TokenInfo × ClientState :=
  let st1 := { st with authCalls := st.authCalls + 1 }
  match authenticate_result now out with
  | .ok tok =>
    (.ok tok, { st1 with token_info := some tok,
                         authHeader := some ("Bearer " ++ tok.access_token) })
  | .error e => (.error e, st1)

/-- Each `authenticate` call bumps the instrumentation counter by one,
whatever its outcome. -/
theorem authenticate_authCalls (st : ClientState) (now : Int) (out : HttpOutcome) :
    (authenticate st now out).2.authCalls = st.authCalls + 1 := by
  unfold authenticate
  cases authenticate_result now out <;> rfl

/-- A freshly constructed client: no token, no auth header, sandbox. -/
def st0 : ClientState := ⟨none, none, .SANDBOX, 0⟩

/-- CLAIM C7: whenever `authenticate` fails (non-200 response, transport
error, decode failure, or an untyped exception), the cached token is exactly
what it was before the call. -/
theorem c7_auth_failure_preserves_token (st : ClientState) (now : Int)
    (out : HttpOutcome) (e : AuthExn) (st' : ClientState)
    (h : authenticate st now out = (.error e, st')) :
    st'.token_info = st.token_info := by
  unfold authenticate at h
  cases hr : authenticate_result now out <;> simp only [hr] at h
  · have h2 := congrArg Prod.snd h
    simp only at h2
    rw [← h2]
  · simp at h

/-- Concrete instantiation of `c7_auth_failure_preserves_token`: after a
rejected OAuth grant (HTTP 500, empty body) the fresh client still caches no
token. -/
theorem c7_auth_failure_preserves_token_witness :
    ({ st0 with authCalls := 1 } : ClientState).token_info = st0.token_info :=
  c7_auth_failure_preserves_token st0 0 (.success ⟨500, "", .ok (.obj [])⟩)
    (.apiError ⟨"Authentication failed: 500", some "AUTH_ERROR", some 500, none⟩)
    { st0 with authCalls := 1 } rfl

/-- CLAIM C2 (amended): on HTTP 200, `expires_in` defaults to 1799 only when
the field is ABSENT; a present non-numeric string makes `authenticate` raise
an uncaught `ValueError` from `int(...)` rather than applying the default. -/
theorem c2_expires_in_amended (st : ClientState) (now : Int) (resp : HttpResponse)
    (data : Json) (a : String)
    (h200 : resp.statusCode = 200) (hj : resp.json = .ok data)
    (ha : data.get? "access_token" = some (.str a)) :
    (data.get? "expires_in" = none →
      Except.map TokenInfo.expires_in (authenticate st now (.success resp)).1 =
        .ok 1799) ∧
    (∀ s, data.get? "expires_in" = some (.str s) → parsePyInt s = none →
      (authenticate st now (.success resp)).1 =
        .error (.otherError ("invalid literal for int() with base 10: " ++ s))) := by
  constructor
  · intro habs
    simp [authenticate, authenticate_result, expires_in_value, Except.map,
      h200, hj, ha, habs]
  · intro s hs hbad
    simp [authenticate, authenticate_result, expires_in_value, pyInt,
      h200, hj, ha, hs, hbad]

/-- Concrete instantiation of `c2_expires_in_amended`: a 200 body with an
`access_token` and no `expires_in` field authenticates with lifetime 1799. -/
theorem c2_expires_in_amended_witness :
    Except.map TokenInfo.expires_in
      (authenticate st0 0 (.success
        ⟨200, "body", .ok (.obj [("access_token", .str "tok")])⟩)).1 = .ok 1799 :=
  (c2_expires_in_amended st0 0 ⟨200, "body", .ok (.obj [("access_token", .str "tok")])⟩
    (.obj [("access_token", .str "tok")]) "tok" rfl rfl rfl).1 rfl

/-- CLAIM C2 counterexample: a 200 OAuth body whose `expires_in` is the
non-numeric string "soon" makes `authenticate` fail (Python `ValueError`),
instead of falling back to the 1799-second default. -/
theorem c2_expires_in_counterexample :
    (authenticate st0 0 (.success ⟨200, "body",
        .ok (.obj [("access_token", .str "tok"), ("expires_in", .str "soon")])⟩)).1 =
      .error (.otherError "invalid literal for int() with base 10: soon") := rfl

/-- CLAIM C4: for a token issued at `T` with lifetime `E`, `is_expired` is
false strictly before `T + E - 60`, true from `T + E - 60` on, and in
particular false right after authentication whenever `E > 60`. -/
theorem c4_token_expiry_buffer (tok : TokenInfo) (t : Int) :
    (t < tok.issued_at + tok.expires_in - 60 → tok.is_expired t = false) ∧
    (tok.issued_at + tok.expires_in - 60 ≤ t → tok.is_expired t = true) ∧
    (60 < tok.expires_in → tok.is_expired tok.issued_at = false) := by
  unfold TokenInfo.is_expired TokenInfo.expires_at
  refine ⟨fun h => ?_, fun h => ?_, fun h => ?_⟩ <;> simp <;> omega

/-- Concrete instantiation of `c4_token_expiry_buffer`: a token issued at time
0 with a 1799-second lifetime is not expired at time 1738 and expired at 1739. -/
theorem c4_token_expiry_buffer_witness :
    TokenInfo.is_expired ⟨"tok", "Bearer", 1799, 0, []⟩ 1738 = false ∧
    TokenInfo.is_expired ⟨"tok", "Bearer", 1799, 0, []⟩ 1739 = true := by
  constructor
  · exact (c4_token_expiry_buffer ⟨"tok", "Bearer", 1799, 0, []⟩ 1738).1 (by decide)
  · exact (c4_token_expiry_buffer ⟨"tok", "Bearer", 1799, 0, []⟩ 1739).2.1 (by decide)

/-- The error-body parse in `_make_request`:
`error_data = response.json() if response.text else {}` inside a bare
`try/except: pass`, so an empty body or a decode failure both leave `{}`. -/
def parse_error_data (resp : HttpResponse) : Json :=
  if resp.text = "" then .obj []
  else
    match resp.json with
    | .ok j => j
    | .error _ => .obj []

/-- The Python type name of a JSON value, as it appears in dynamic-typing
exception messages. -/
def pyTypeName : Json → String
  | .null => "NoneType"
  | .bool _ => "bool"
  | .num _ => "int"
  | .str _ => "str"
  | .arr _ => "list"
  | .obj _ => "dict"

/-- Whether a JSON value is an object (a Python dict). -/
def Json.isObj : Json → Bool
  | .obj _ => true
  | _ => false

/-- `errors = error_data.get("errors", [{}]); first_error = errors[0] if errors
else {}`, then `first_error.get(...)`: yields the first-entry dict when the
`errors` value is absent, falsy, or a list headed by a dict; every other shape
crashes with the uncaught Python exception that `error_data.get` /
`errors[0]` / `first_error.get` raises (only `requests.RequestException` is
caught around the dispatch). -/
def first_error (error_data : Json) : Except String Json :=
  match error_data with
  | .obj fields =>
    match (Json.obj fields).get? "errors" with
    | none => .ok (.obj [])
    | some .null => .ok (.obj [])
    | some (.bool b) =>
      if b then .error "TypeError: bool object is not subscriptable"
      else .ok (.obj [])
    | some (.num n) =>
      if n = 0 then .ok (.obj [])
      else .error "TypeError: int object is not subscriptable"
    | some (.str s) =>
      if s = "" then .ok (.obj [])
      else .error "AttributeError: str object has no attribute get"
    | some (.arr []) => .ok (.obj [])
    | some (.arr (h :: _)) =>
      match h with
      | .obj f => .ok (.obj f)
      | _ => .error ("AttributeError: " ++ pyTypeName h ++ " object has no attribute get")
    | some (.obj []) => .ok (.obj [])
    | some (.obj (_ :: _)) => .error "KeyError: 0"
  | _ => .error ("AttributeError: " ++ pyTypeName error_data ++ " object has no attribute get")

/-- The synthesized error message of `_make_request` when the body carries no
structured message, keyed by status class; body excerpts are capped at 200
characters. -/
def synth_error_msg (statusCode : Int) (url text : String) : String :=
  if statusCode = 503 then
    let excerpt := if text = "" then "empty" else text.take 200
    "USCIS API unavailable (503). URL: " ++ url ++ ". Response: " ++ excerpt
  else if statusCode = 401 then
    "Authentication failed - check your credentials"
  else if statusCode = 404 then
    "Endpoint not found: " ++ url
  else
    let excerpt := if text = "" then "no response body" else text.take 200
    "API error " ++ toString statusCode ++ ": " ++ excerpt

/-- `USCISApiClient._make_request` after `_ensure_authenticated`: dispatch of
one HTTP outcome.  Status ≥ 400 raises a `USCISApiError` built from the first
entry of the body's `errors` array (message when non-empty, code with default
`HTTP_{status}`, traceId) or a synthesized message — unless that extraction
itself crashes with an uncaught dynamic-typing exception (`AuthExn.otherError`,
from a malformed `errors` value); a 2xx body is decoded as JSON, a decode
failure or transport failure raising a status-less error. -/
def make_request (url : String) (out : HttpOutcome) : Except AuthExn Json :=
  match out with
  | .transportError m => .error (.apiError ⟨"Network error: " ++ m, none, none, none⟩)
  | .success resp =>
    if 400 ≤ resp.statusCode then
      match first_error (parse_error_data resp) with
      | .error m => .error (.otherError m)
      | .ok fe =>
        let msg0 := fe.getStrD "message" ""
        let msg := if msg0 = "" then synth_error_msg resp.statusCode url resp.text else msg0
        .error (.apiError ⟨msg, some (fe.getStrD "code" ("HTTP_" ++ toString resp.statusCode)),
          some resp.statusCode, fe.getStr? "traceId"⟩)
    else
      match resp.json with
      | .ok j => .ok j
      | .error m => .error (.apiError ⟨"Network error: " ++ m, none, none, none⟩)

/-- A `get?` that answers `some` can only come from an object. -/
theorem Json.eq_obj_of_get (j : Json) (k : String) (v : Json)
    (h : j.get? k = some v) : ∃ f, j = .obj f := by
  cases j with
  | obj f => exact ⟨f, rfl⟩
  | null => simp [Json.get?] at h
  | bool b => simp [Json.get?] at h
  | num n => simp [Json.get?] at h
  | str s => simp [Json.get?] at h
  | arr l => simp [Json.get?] at h

/-- CLAIM C8 (amended): for every response with status ≥ 400 whose error-body
extraction does not crash (the `errors` value, when present, is absent/falsy
or an array headed by an object), `make_request` raises a `USCISApiError`
carrying that status; with a structured `errors` array the
message/code/traceId come from its first entry; with no structured error the
message is synthesized by status class (503 names the URL and a body excerpt
capped at 200 characters, 401 blames credentials, 404 names the URL, other
statuses give "API error {status}" with a capped excerpt) and the code
defaults to `HTTP_{status}`.  But a malformed `errors` value — here, an array
whose first entry is not an object — makes the extraction raise an uncaught
`AttributeError` instead of any `USCISApiError`. -/
theorem c8_error_mapping :
    (∀ url (resp : HttpResponse) fe, 400 ≤ resp.statusCode →
      first_error (parse_error_data resp) = .ok fe →
      ∃ e, make_request url (.success resp) = .error (.apiError e) ∧
        e.status = some resp.statusCode) ∧
    (∀ url (resp : HttpResponse) ed fe tl m c t, 400 ≤ resp.statusCode →
      resp.text ≠ "" → resp.json = .ok ed →
      ed.get? "errors" = some (.arr (fe :: tl)) →
      fe.get? "message" = some (.str m) → m ≠ "" →
      fe.get? "code" = some (.str c) →
      fe.get? "traceId" = some (.str t) →
      make_request url (.success resp) =
        .error (.apiError ⟨m, some c, some resp.statusCode, some t⟩)) ∧
    (∀ url j, make_request url (.success ⟨503, "", j⟩) =
      .error (.apiError ⟨"USCIS API unavailable (503). URL: " ++ url ++ ". Response: empty",
        some "HTTP_503", some 503, none⟩)) ∧
    (∀ url t m, t ≠ "" → make_request url (.success ⟨503, t, .error m⟩) =
      .error (.apiError ⟨"USCIS API unavailable (503). URL: " ++ url ++ ". Response: " ++ t.take 200,
        some "HTTP_503", some 503, none⟩)) ∧
    (∀ url j, make_request url (.success ⟨401, "", j⟩) =
      .error (.apiError ⟨"Authentication failed - check your credentials",
        some "HTTP_401", some 401, none⟩)) ∧
    (∀ url j, make_request url (.success ⟨404, "", j⟩) =
      .error (.apiError ⟨"Endpoint not found: " ++ url, some "HTTP_404", some 404, none⟩)) ∧
    (∀ url sc j, 400 ≤ sc → sc ≠ 503 → sc ≠ 401 → sc ≠ 404 →
      make_request url (.success ⟨sc, "", j⟩) =
        .error (.apiError ⟨"API error " ++ toString sc ++ ": no response body",
          some ("HTTP_" ++ toString sc), some sc, none⟩)) ∧
    (∀ url (resp : HttpResponse) ed h tl, 400 ≤ resp.statusCode →
      resp.text ≠ "" → resp.json = .ok ed →
      ed.get? "errors" = some (.arr (h :: tl)) → h.isObj = false →
      make_request url (.success resp) =
        .error (.otherError
          ("AttributeError: " ++ pyTypeName h ++ " object has no attribute get"))) := by
  refine ⟨?_, ?_, ?_, ?_, ?_, ?_, ?_, ?_⟩
  · intro url resp fe h hfe
    simp only [make_request]
    rw [if_pos h, hfe]
    exact ⟨_, rfl, rfl⟩
  · intro url resp ed fe tl m c t hs ht hj he hm hmne hc htr
    obtain ⟨edf, rfl⟩ := Json.eq_obj_of_get ed "errors" _ he
    obtain ⟨fef, rfl⟩ := Json.eq_obj_of_get fe "message" _ hm
    simp [make_request, hs, parse_error_data, first_error, ht, hj, he,
      Json.getStrD, Json.getStr?, hm, hmne, hc, htr]
  · intro url j
    have h1 : toString (503 : Int) = "503" := rfl
    simp [make_request, parse_error_data, first_error, synth_error_msg,
      Json.getStrD, Json.getStr?, Json.get?, String.append_assoc, h1]
  · intro url t m ht
    have h1 : toString (503 : Int) = "503" := rfl
    simp [make_request, parse_error_data, first_error, synth_error_msg, ht,
      Json.getStrD, Json.getStr?, Json.get?, String.append_assoc, h1]
  · intro url j
    have h1 : toString (401 : Int) = "401" := rfl
    simp [make_request, parse_error_data, first_error, synth_error_msg,
      Json.getStrD, Json.getStr?, Json.get?, String.append_assoc, h1]
  · intro url j
    have h1 : toString (404 : Int) = "404" := rfl
    simp [make_request, parse_error_data, first_error, synth_error_msg,
      Json.getStrD, Json.getStr?, Json.get?, String.append_assoc, h1]
  · intro url sc j hs h503 h401 h404
    simp [make_request, parse_error_data, first_error, synth_error_msg,
      hs, h503, h401, h404, Json.getStrD, Json.getStr?, Json.get?,
      String.append_assoc]
  · intro url resp ed h tl hs ht hj he hniso
    obtain ⟨edf, rfl⟩ := Json.eq_obj_of_get ed "errors" _ he
    cases h <;>
      simp_all [make_request, hs, parse_error_data, first_error, ht, hj,
        Json.isObj, pyTypeName]

/-- CLAIM C8 counterexample: a 400 response whose body is
`{"errors": [5]}` does NOT raise a `USCISApiError` carrying status 400 — the
extraction `errors[0].get("message", "")` crashes with an uncaught
`AttributeError` (only `requests.RequestException` is caught). -/
theorem c8_error_mapping_counterexample :
    make_request "u" (.success ⟨400, "body", .ok (.obj [("errors", .arr [.num 5])])⟩) =
      .error (.otherError "AttributeError: int object has no attribute get") := rfl

/-- Concrete instantiation of `c8_error_mapping`: a 503 with an empty body
maps to a `USCISApiError` whose message contains "503" and the URL, with code
`HTTP_503` and status 503. -/
theorem c8_error_mapping_witness :
    make_request "https://api-int.uscis.gov/case-status/X" (.success ⟨503, "", .ok (.obj [])⟩) =
      .error (.apiError ⟨"USCIS API unavailable (503). URL: https://api-int.uscis.gov/case-status/X. Response: empty",
        some "HTTP_503", some 503, none⟩) :=
  c8_error_mapping.2.2.1 "https://api-int.uscis.gov/case-status/X" (.ok (.obj []))

/-- The field extraction in `get_case_status`:
`case_data = data.get("case_status", {})` followed by per-field `get`s whose
defaults are the input receipt number, empty strings, or `None`. -/
def parse_case_status (receipt_number : String) (data : Json) : CaseStatus :=
  let case_data := (data.get? "case_status").getD (.obj [])
  { receipt_number := case_data.getStrD "receiptNumber" receipt_number
    form_type := case_data.getStrD "formType" ""
    submitted_date := case_data.getStr? "submittedDate"
    modified_date := case_data.getStr? "modifiedDate"
    status_text_en := case_data.getStrD "current_case_status_text_en" ""
    status_desc_en := case_data.getStrD "current_case_status_desc_en" ""
    status_text_es := case_data.getStr? "current_case_status_text_es"
    status_desc_es := case_data.getStr? "current_case_status_desc_es"
    history := case_data.get? "hist_case_status"
    raw_response := data }

/-- `str(e)` of a `USCISApiError` is its message (the exception is built with
`super().__init__(message)`). -/
def errorStr (e : USCISApiError) : String := e.message

/-- The loop body of `get_case_status_batch`: each receipt's lookup outcome is
either appended to `results` or, when it raises a `USCISApiError`, recorded in
a local `errors` mapping (the oracle `env` gives `self.get_case_status
(receipt)`'s outcome per receipt). -/
def batch_loop (receipts : List String)
    (env : String → Except USCISApiError CaseStatus) :
    List (String × CaseStatus) × List (String × String) :=
  match receipts with
  | [] => ([], [])
  | r :: rest =>
    let acc := batch_loop rest env
    match env r with
    | .ok c => ((r, c) :: acc.1, acc.2)
    | .error e => (acc.1, (r, errorStr e) :: acc.2)

/-- `USCISApiClient.get_case_status_batch`: runs the loop and returns ONLY the
`results` mapping (`return results`); the `errors` mapping is logged and then
discarded. -/
def get_case_status_batch (receipts : List String)
    (env : String → Except USCISApiError CaseStatus) :
    List (String × CaseStatus) :=
  (batch_loop receipts env).1

/-- CLAIM C1 (amended): the batch visits every receipt in order, records each
failing item's error message in a local `errors` mapping instead of aborting
(a failure never prevents the remaining lookups), but returns ONLY the
success mapping — the failure mapping is logged, not returned. -/
theorem c1_batch_amended (receipts : List String)
    (env : String → Except USCISApiError CaseStatus) :
    get_case_status_batch receipts env =
      receipts.filterMap (fun r =>
        match env r with
        | .ok c => some (r, c)
        | .error _ => none) ∧
    (batch_loop receipts env).2 =
      receipts.filterMap (fun r =>
        match env r with
        | .ok _ => none
        | .error e => some (r, errorStr e)) := by
  unfold get_case_status_batch
  induction receipts with
  | nil => exact ⟨rfl, rfl⟩
  | cons r rest ih =>
    simp only [batch_loop, List.filterMap_cons]
    cases h : env r <;> simp [h, ih.1, ih.2]

/-- A demo environment for the batch counterexample: "BAD1" raises a 400
`USCISApiError`, every other receipt succeeds with a default-parsed body. -/
def cexEnv (r : String) : Except USCISApiError CaseStatus :=
  if r = "BAD1" then .error ⟨"Invalid receipt", some "BAD_INPUT", some 400, none⟩
  else .ok (parse_case_status r (.obj []))

/-- CLAIM C1 counterexample: `get_case_status_batch ["OK1","BAD1","OK2"]`
with "BAD1" failing returns a single mapping holding only the two successes —
no failure mapping (no entry for "BAD1") is part of the return value, contrary
to the claimed two-mapping result. -/
theorem c1_batch_counterexample :
    get_case_status_batch ["OK1", "BAD1", "OK2"] cexEnv =
      [("OK1", parse_case_status "OK1" (.obj [])),
       ("OK2", parse_case_status "OK2" (.obj []))] ∧
    (get_case_status_batch ["OK1", "BAD1", "OK2"] cexEnv).lookup "BAD1" = none := by
  exact ⟨rfl, rfl⟩

/-- `USCISApiClient._ensure_authenticated`: authenticate only when no valid
(cached, non-expired) token is present. -/
def ensure_authenticated (st : ClientState) (now : Int) (authOut : HttpOutcome) :
    Except AuthExn Unit × ClientState :=
  if is_authenticated st.token_info now then (.ok (), st)
  else
    match authenticate st now authOut with
    | (.ok _, st') => (.ok (), st')
    | (.error e, st') => (.error e, st')

/-- `USCISApiClient._make_request` in full: `_ensure_authenticated` first
(`authOut` is the OAuth endpoint's outcome if authentication runs), then the
dispatch of `out`; every exception from dispatch propagates. -/
def make_request_op (st : ClientState) (now : Int) (authOut : HttpOutcome)
    (url : String) (out : HttpOutcome) : Except AuthExn Json × ClientState :=
  match ensure_authenticated st now authOut with
  | (.ok _, st') =>
    (match make_request url out with
     | .ok j => (.ok j, st')
     | .error e => (.error e, st'))
  | (.error e, st') => (.error e, st')

/-- Stateful `USCISApiClient.get_case_status`: one `_make_request` for
`GET /case-status/{receipt_number}`, then field extraction. -/
def get_case_status_op (st : ClientState) (now : Int) (authOut : HttpOutcome)
    (receipt_number url : String) (out : HttpOutcome) :
    Except AuthExn CaseStatus × ClientState :=
  match make_request_op st now authOut url out with
  | (.ok data, st') => (.ok (parse_case_status receipt_number data), st')
  | (.error e, st') => (.error e, st')

/-- The JSON payload of `create_foia_request`: required snake_case inputs
mapped to camelCase keys, truthy optional fields appended, then any
additional free-form fields. -/
def foia_payload (subject_first_name subject_last_name subject_dob
    subject_country_of_birth : String) (a_number requester_email : Option String)
    (request_type : String) (additional_fields : List (String × Json)) : Json :=
  let base := [("subjectFirstName", Json.str subject_first_name),
               ("subjectLastName", Json.str subject_last_name),
               ("subjectDateOfBirth", Json.str subject_dob),
               ("subjectCountryOfBirth", Json.str subject_country_of_birth),
               ("requestType", Json.str request_type)]
  let withA := base ++ (match a_number with
    | some a => if a = "" then [] else [("alienNumber", Json.str a)]
    | none => [])
  let withEmail := withA ++ (match requester_email with
    | some e => if e = "" then [] else [("requesterEmail", Json.str e)]
    | none => [])
  .obj (withEmail ++ additional_fields)

/-- The field extraction of `create_foia_request` from the decoded response. -/
def parse_foia_request (data : Json) : FOIARequest :=
  { request_number := data.getStr? "requestNumber"
    status := data.getStr? "status"
    created_date := data.getStr? "createdDate"
    raw_response := data }

/-- Stateful `USCISApiClient.create_foia_request`: builds the payload and
issues one `_make_request` (`POST /foia/request`), then parses the result. -/
def create_foia_request_op (st : ClientState) (now : Int) (authOut : HttpOutcome)
    (subject_first_name subject_last_name subject_dob
      subject_country_of_birth : String)
    (a_number requester_email : Option String) (request_type : String)
    (additional_fields : List (String × Json)) (url : String) (out : HttpOutcome) :
    Except AuthExn FOIARequest × ClientState :=
  let _payload := foia_payload subject_first_name subject_last_name subject_dob
    subject_country_of_birth a_number requester_email request_type additional_fields
  match make_request_op st now authOut url out with
  | (.ok data, st') => (.ok (parse_foia_request data), st')
  | (.error e, st') => (.error e, st')

/-- Stateful `USCISApiClient.get_foia_status`: one `_make_request`
(`GET /foia/status/{request_number}`); the result echoes the input request
number and extracts `status`. -/
def get_foia_status_op (st : ClientState) (now : Int) (authOut : HttpOutcome)
    (request_number url : String) (out : HttpOutcome) :
    Except AuthExn FOIARequest × ClientState :=
  match make_request_op st now authOut url out with
  | (.ok data, st') =>
    (.ok ⟨some request_number, data.getStr? "status", none, data⟩, st')
  | (.error e, st') => (.error e, st')

/-- `_ensure_authenticated` performs zero `authenticate` calls on a valid
cached token and exactly one otherwise. -/
theorem ensure_authenticated_authCalls (st : ClientState) (now : Int)
    (authOut : HttpOutcome) :
    (ensure_authenticated st now authOut).2.authCalls =
      st.authCalls + (if is_authenticated st.token_info now then 0 else 1) := by
  unfold ensure_authenticated
  by_cases h : is_authenticated st.token_info now
  · simp [h]
  · have := authenticate_authCalls st now authOut
    simp only [h, if_false, Bool.false_eq_true]
    cases ha : authenticate st now authOut with
    | mk r st' =>
      cases r <;> simp_all

/-- The dispatch step never authenticates: `make_request_op` keeps the state
produced by `_ensure_authenticated`. -/
theorem make_request_op_authCalls (st : ClientState) (now : Int)
    (authOut : HttpOutcome) (url : String) (out : HttpOutcome) :
    (make_request_op st now authOut url out).2.authCalls =
      st.authCalls + (if is_authenticated st.token_info now then 0 else 1) := by
  unfold make_request_op
  have := ensure_authenticated_authCalls st now authOut
  cases he : ensure_authenticated st now authOut with
  | mk r st' =>
    cases r with
    | ok _ => cases make_request url out <;> simp_all
    | error e => simp_all

/-- CLAIM C5: each single API operation (`get_case_status`,
`create_foia_request`, `get_foia_status`) triggers zero `authenticate` calls
when a valid (cached, non-expired) token is present and exactly one when the
cached token is absent or expired. -/
theorem c5_ensure_authenticated_call_count (st : ClientState) (now : Int)
    (authOut : HttpOutcome) (receipt_number url : String) (out : HttpOutcome)
    (fn ln dob cob : String) (an re : Option String) (rt : String)
    (add : List (String × Json)) (rn : String) :
    ((get_case_status_op st now authOut receipt_number url out).2.authCalls =
      st.authCalls + (if is_authenticated st.token_info now then 0 else 1)) ∧
    ((create_foia_request_op st now authOut fn ln dob cob an re rt add url
        out).2.authCalls =
      st.authCalls + (if is_authenticated st.token_info now then 0 else 1)) ∧
    ((get_foia_status_op st now authOut rn url out).2.authCalls =
      st.authCalls + (if is_authenticated st.token_info now then 0 else 1)) := by
  have h := make_request_op_authCalls st now authOut url out
  refine ⟨?_, ?_, ?_⟩ <;>
    [unfold get_case_status_op; unfold create_foia_request_op;
      unfold get_foia_status_op] <;>
    (cases hm : make_request_op st now authOut url out with
     | mk r st' => cases r <;> simp_all)

/-- The mapping returned by `get_token_info`: `{"authenticated": False}` when
no token is cached (all other keys absent), else the token projection. -/
structure TokenInfoView where
  authenticated : Bool
  token_type : Option String
  expires_in : Option Int
  issued_at : Option Int
  expires_at : Option Int
  is_expired : Option Bool
  seconds_remaining : Option Int
  api_products : Option (List String)
  environment : Option String
deriving Repr, DecidableEq

/-- `USCISApiClient.get_token_info`: a pure projection of the cached token
(`seconds_remaining` is floored at zero); the answer depends only on the
token's PRESENCE, not its validity. -/
def get_token_info (st : ClientState) (now : Int) : TokenInfoView :=
  match st.token_info with
  | none => ⟨false, none, none, none, none, none, none, none, none⟩
  | some t =>
    ⟨true, some t.token_type, some t.expires_in, some t.issued_at,
     some t.expires_at, some (t.is_expired now),
     some (max 0 (t.expires_at - now)), some t.api_products,
     some st.environment.value⟩

/-- CLAIM C10: `get_token_info` reports `authenticated` exactly when a token
is cached — even an expired one — and returns the bare
`{authenticated: false}` mapping only when no token was ever cached; it can
therefore disagree with `is_authenticated` (witnessed by an expired token). -/
theorem c10_get_token_info_authenticated :
    (∀ st now, (get_token_info st now).authenticated = st.token_info.isSome) ∧
    (∀ (h : Option String) (env : USCISEnvironment) (n : Nat) (now : Int),
      get_token_info ⟨none, h, env, n⟩ now =
        ⟨false, none, none, none, none, none, none, none, none⟩) ∧
    ((get_token_info ⟨some ⟨"tok", "Bearer", 1799, 0, []⟩, none, .SANDBOX, 1⟩
        5000).authenticated = true ∧
      is_authenticated (some ⟨"tok", "Bearer", 1799, 0, []⟩) 5000 = false) := by
  refine ⟨fun st now => ?_, fun h env n now => rfl, by decide⟩
  cases h : st.token_info <;> simp [get_token_info, h]

/-- The three sandbox test receipt numbers (`SANDBOX_TEST_RECEIPTS`). -/
def SANDBOX_TEST_RECEIPTS : List String :=
  ["EAC9999103402", "WAC9999103402", "LIN9999103402"]

/-- `SANDBOX_TEST_RECEIPTS[0]`, the receipt `test_connection` probes. -/
def sandbox_first_receipt : String :=
  SANDBOX_TEST_RECEIPTS.get ⟨0, by decide⟩

/-- The `authentication` entry of a `test_connection` result. -/
inductive AuthSection where
  | ok (token_info : TokenInfoView) : AuthSection
  | failed (error : String) (code : Option String) : AuthSection

/-- The `case_status_api` entry of a `test_connection` result; `notRun` is the
initial `{"success": False}` placeholder. -/
inductive CaseSection where
  | notRun : CaseSection
  | caseOk (test_receipt form_type status_text : String) : CaseSection
  | caseFailed (test_receipt error : String) (code : Option String) : CaseSection

/-- The mapping returned by `test_connection`. -/
structure TestConnectionResult where
  environment : String
  timestamp : Int
  authentication : AuthSection
  case_status_api : CaseSection

/-- `USCISApiClient.test_connection`: always calls `authenticate()` directly
(never `_ensure_authenticated`); on a `USCISApiError` it records the failure
and returns at once, leaving `case_status_api` at its initial placeholder; on
success, in SANDBOX it probes `get_case_status` on the first test receipt
(`caseEnv` gives that call's outcome).  Exceptions other than `USCISApiError`
propagate. -/
def test_connection (st : ClientState) (now : Int) (authOut : HttpOutcome)
    (caseEnv : String → Except USCISApiError CaseStatus) :
    Except String TestConnectionResult × ClientState :=
  match authenticate st now authOut with
  | (.error (.apiError e), st') =>
    (.ok ⟨st.environment.value, now, .failed (errorStr e) e.code, .notRun⟩, st')
  | (.error (.otherError m), st') => (.error m, st')
  | (.ok _, st') =>
    let authSec := AuthSection.ok (get_token_info st' now)
    if st.environment = .SANDBOX then
      match caseEnv sandbox_first_receipt with
      | .ok c =>
        (.ok ⟨st.environment.value, now, authSec,
          .caseOk sandbox_first_receipt c.form_type c.status_text_en⟩, st')
      | .error e =>
        (.ok ⟨st.environment.value, now, authSec,
          .caseFailed sandbox_first_receipt (errorStr e) e.code⟩, st')
    else (.ok ⟨st.environment.value, now, authSec, .notRun⟩, st')

/-- CLAIM C9: `test_connection` always re-authenticates (exactly one direct
`authenticate` call even when a valid token is cached); when that call raises
a `USCISApiError` it returns immediately with the failure recorded and the
case-status sub-test untouched, independently of the case-status endpoint. -/
theorem c9_test_connection_short_circuit :
    (∀ st now authOut caseEnv,
      (test_connection st now authOut caseEnv).2.authCalls = st.authCalls + 1) ∧
    (∀ st now authOut caseEnv (e : USCISApiError) st',
      authenticate st now authOut = (.error (.apiError e), st') →
      test_connection st now authOut caseEnv =
        (.ok ⟨st.environment.value, now, .failed (errorStr e) e.code, .notRun⟩, st')) ∧
    (∀ st now authOut caseEnv caseEnv' (e : USCISApiError) st',
      authenticate st now authOut = (.error (.apiError e), st') →
      test_connection st now authOut caseEnv =
        test_connection st now authOut caseEnv') := by
  have key : ∀ st now authOut caseEnv (e : USCISApiError) st',
      authenticate st now authOut = (.error (.apiError e), st') →
      test_connection st now authOut caseEnv =
        (.ok ⟨st.environment.value, now, .failed (errorStr e) e.code, .notRun⟩, st') := by
    intro st now authOut caseEnv e st' h
    simp [test_connection, h]
  refine ⟨?_, key, ?_⟩
  · intro st now authOut caseEnv
    have hc := authenticate_authCalls st now authOut
    unfold test_connection
    cases ha : authenticate st now authOut with
    | mk r st' =>
      rw [ha] at hc
      cases r with
      | error e => cases e <;> simp_all
      | ok tok =>
        by_cases he : st.environment = .SANDBOX
        · cases caseEnv sandbox_first_receipt <;> simp_all
        · simp_all
  · intro st now authOut caseEnv caseEnv' e st' h
    rw [key st now authOut caseEnv e st' h, key st now authOut caseEnv' e st' h]

/-- Concrete instantiation of `c9_test_connection_short_circuit`: after a 500
OAuth response, `test_connection` reports the auth failure (code
"AUTH_ERROR") and leaves the case-status sub-test at its placeholder. -/
theorem c9_test_connection_short_circuit_witness :
    test_connection st0 0 (.success ⟨500, "", .ok (.obj [])⟩) cexEnv =
      (.ok ⟨"sandbox", 0, .failed "Authentication failed: 500" (some "AUTH_ERROR"),
        .notRun⟩, { st0 with authCalls := 1 }) :=
  c9_test_connection_short_circuit.2.1 st0 0 (.success ⟨500, "", .ok (.obj [])⟩) cexEnv
    ⟨"Authentication failed: 500", some "AUTH_ERROR", some 500, none⟩
    { st0 with authCalls := 1 } rfl

end Uscis
